import Mathlib

/- Shallow embedding of the S3O importer in src/s3o_import.py.
   A byte buffer is a list of byte values; all multibyte fields are little
   endian, exactly as in the struct format strings of the source.
   Python float fields are only stored during decode, never computed with,
   except for the unary minus applied to midx (source line 107); they are
   therefore modelled by their IEEE-754 binary32 bit patterns, and the unary
   minus is modelled as the sign-bit flip f32neg, which is what negation of
   the unpacked value performs on the stored pattern. -/

/-- Converts a Lean string literal to the list of its character codes; used to
model Python (ASCII) strings as lists of naturals. -/
def S (s : String) : List Nat := s.toList.map Char.toNat

/-- Python exceptions the importer can raise while decoding.  ioError models
the raise at source line 99, typeError the raises at lines 103, 193 and 203,
structError a struct.unpack call on a buffer of the wrong size,
unicodeDecodeError a bytes.decode ascii call on a byte above 127, indexError
an out-of-range list subscript, and recursionError the CPython interpreter
aborting the recursion when the stack limit is exceeded. -/
inductive PyErr where
  | ioError (msg : List Nat)
  | typeError (msg : List Nat)
  | structError
  | unicodeDecodeError
  | indexError
  | recursionError
  deriving Repr, DecidableEq

/-- The open file: the byte buffer plus the current position, mirroring the
fhandle object threaded through the source. -/
structure Handle where
  data : List Nat
  pos : Nat
  deriving Repr, DecidableEq

/-- fhandle.read(n): returns up to n bytes from the current position (fewer at
end of file, as in Python) and advances the position by the number of bytes
actually read. -/
def hread (h : Handle) (n : Nat) : List Nat × Handle :=
  let bs := (h.data.drop h.pos).take n
  (bs, { h with pos := h.pos + bs.length })

/-- fhandle.seek(offset, os.SEEK_SET). -/
def hseek (h : Handle) (offset : Nat) : Handle :=
  { h with pos := offset }

/-- Propagation of a Python exception: run the continuation on a success and
re-raise an error, the monadic glue of the embedding. -/
def onOk {a b : Type} (x : Except PyErr a) (f : a → Except PyErr b) : Except PyErr b :=
  match x with
  | .error e => .error e
  | .ok v => f v

@[simp] theorem onOk_error {a b : Type} (e : PyErr) (f : a → Except PyErr b) :
    onOk (.error e) f = .error e := rfl

@[simp] theorem onOk_ok {a b : Type} (v : a) (f : a → Except PyErr b) :
    onOk (.ok v) f = f v := rfl

/-- Little-endian 32-bit value from four bytes, as struct.unpack with format I
or the bit pattern of format f. -/
def le32 (a b c d : Nat) : Nat :=
  a + 256 * b + 65536 * c + 16777216 * d

/-- Little-endian 32-bit field starting at byte index k of a buffer. -/
def le32At (l : List Nat) (k : Nat) : Nat :=
  le32 (l.getD k 0) (l.getD (k + 1) 0) (l.getD (k + 2) 0) (l.getD (k + 3) 0)

/-- struct.unpack with a single I on a 4-byte buffer; any other length raises
struct.error (modelled as none). -/
def unpack1U (l : List Nat) : Option Nat :=
  if l.length = 4 then some (le32At l 0) else none

/-- IEEE-754 sign-bit flip on a 32-bit pattern: the effect of the Python unary
minus at source line 107 on the stored value. -/
def f32neg (b : Nat) : Nat :=
  if b < 2147483648 then b + 2147483648 else b - 2147483648

/-- The loop of read_string (source lines 47 to 54) on the bytes from the
start offset: collects character codes until a zero byte or end of file,
raising unicodeDecodeError on a byte above 127 exactly where the per-byte
c.decode ascii call would.  Returns the string and the number of bytes
consumed, terminator included when one was read. -/
def scanCString : List Nat → Except PyErr (List Nat × Nat)
  | [] => .ok ([], 0)
  | b :: rest =>
    if b = 0 then .ok ([], 1)
    else if 128 ≤ b then .error .unicodeDecodeError
    else onOk (scanCString rest) fun x => .ok (b :: x.1, x.2 + 1)

/-- read_string(fhandle, offset), source lines 47 to 54: seeks to the absolute
offset and reads a null-terminated ASCII string byte by byte. -/
def read_string (h : Handle) (offset : Nat) : Except PyErr (List Nat × Handle) :=
  onOk (scanCString (h.data.drop offset)) fun x =>
    .ok (x.1, { data := h.data, pos := offset + x.2 })

/-- The string value read_string would produce on a buffer at an offset,
without the handle bookkeeping. -/
def cStringAt (data : List Nat) (offset : Nat) : Except PyErr (List Nat) :=
  onOk (scanCString (data.drop offset)) fun x => .ok x.1

/-- bytes.decode ascii: succeeds with the same codes when every byte is below
128, raises UnicodeDecodeError otherwise (source line 97 applies it to the
12 magic bytes). -/
def decodeAscii (l : List Nat) : Except PyErr (List Nat) :=
  if l.all (fun c => decide (c < 128)) then .ok l else .error .unicodeDecodeError

/-- The ASCII characters the Python str.strip default call removes: those for
which str.isspace holds, namely tab through carriage return (9 to 13), the
file, group, record and unit separators (28 to 31) and the space (32).
Non-ASCII whitespace cannot reach the strip at source line 97, because the
ascii decode rejects every byte above 127 first. -/
def isPySpace (c : Nat) : Bool :=
  c == 32 || c == 9 || c == 10 || c == 13 || c == 11 || c == 12 ||
  c == 28 || c == 29 || c == 30 || c == 31

/-- str.strip(): drops leading and trailing whitespace. -/
def pyStrip (l : List Nat) : List Nat :=
  ((l.dropWhile isPySpace).reverse.dropWhile isPySpace).reverse

/-- The normalisation the source applies to the 12 magic bytes at line 97:
replace removes every NUL byte, wherever it occurs, then strip removes
leading and trailing whitespace. -/
def magicNorm (l : List Nat) : List Nat :=
  pyStrip (l.filter (fun c => c != 0))

def springUnit : List Nat := S "Spring unit"

/-- Message of the IOError raised at source line 99. -/
def notSpringMsg (magic : List Nat) : List Nat :=
  S "Not a Spring unit file: \x27" ++ magic ++ S "\x27"

/-- Message of the TypeError CPython raises when a str is concatenated with an
int, which is what the raise statements at source lines 103 and 203 actually
produce while building their messages; the exact wording varies with the
CPython version, the exception type does not. -/
def strIntConcatMsg : List Nat := S "can only concatenate str to str, not int"

/-- The decoded header object, source class s3o_header (lines 79 to 124).
Float fields hold binary32 bit patterns. -/
structure s3o_header where
  magic : List Nat
  version : Nat
  radius : Nat
  height : Nat
  midx : Nat
  midy : Nat
  midz : Nat
  rootPieceOffset : Nat
  collisionDataOffset : Nat
  texture1Offset : Nat
  texture2Offset : Nat
  texture1 : List Nat
  texture2 : List Nat
  deriving Repr, DecidableEq

/-- s3o_header.load, source lines 94 to 124.  Format <12sI5f4I is 52 bytes:
magic at 0, version at 12, radius at 16, height at 20, midx at 24, midy at
28, midz at 32, rootPieceOffset at 36, collisionDataOffset at 40,
texture1Offset at 44, texture2Offset at 48.  The version raise at line 103
concatenates a str with an int, so what CPython actually raises there is the
TypeError from the failed concatenation, not the intended ValueError. -/
def s3o_header.load (h : Handle) : Except PyErr (s3o_header × Handle) :=
  let bs := hread h 52
  if bs.1.length = 52 then
    onOk (decodeAscii (bs.1.take 12)) fun magicRaw =>
    let magic := magicNorm magicRaw
    if magic = springUnit then
      if le32At bs.1 12 = 0 then
        let t1off := le32At bs.1 44
        onOk (if t1off = 0 then .ok (([] : List Nat), bs.2) else read_string bs.2 t1off) fun t1 =>
        let t2off := le32At bs.1 48
        onOk (if t2off = 0 then .ok (([] : List Nat), t1.2) else read_string t1.2 t2off) fun t2 =>
        .ok ({ magic := magic, version := le32At bs.1 12,
               radius := le32At bs.1 16, height := le32At bs.1 20,
               midx := f32neg (le32At bs.1 24), midy := le32At bs.1 28,
               midz := le32At bs.1 32,
               rootPieceOffset := le32At bs.1 36,
               collisionDataOffset := le32At bs.1 40,
               texture1Offset := t1off, texture2Offset := t2off,
               texture1 := t1.1, texture2 := t2.1 }, t2.2)
      else .error (.typeError strIntConcatMsg)
    else .error (.ioError (notSpringMsg magic))
  else .error .structError

/-- One decoded vertex, source class s3o_vert (lines 268 to 291); the eight
float fields hold binary32 bit patterns. -/
structure s3o_vert where
  xpos : Nat
  ypos : Nat
  zpos : Nat
  xnormal : Nat
  ynormal : Nat
  znormal : Nat
  texu : Nat
  texv : Nat
  deriving Repr, DecidableEq

/-- s3o_vert.load, source lines 279 to 291: seek to the offset, read the
32-byte record of format <8f, unpack it. -/
def s3o_vert.load (h : Handle) (offset : Nat) : Except PyErr (s3o_vert × Handle) :=
  let h0 := hseek h offset
  let bs := hread h0 32
  if bs.1.length = 32 then
    .ok ({ xpos := le32At bs.1 0, ypos := le32At bs.1 4, zpos := le32At bs.1 8,
           xnormal := le32At bs.1 12, ynormal := le32At bs.1 16,
           znormal := le32At bs.1 20, texu := le32At bs.1 24,
           texv := le32At bs.1 28 }, bs.2)
  else .error .structError

/-- The 13 fields unpacked from the 52-byte piece record of format <10I3f,
source lines 150 to 167: ten unsigned 32-bit fields followed by three floats
(stored as bit patterns). -/
structure PieceRec where
  nameOffset : Nat
  numChildren : Nat
  childrenOffset : Nat
  numVerts : Nat
  vertsOffset : Nat
  vertType : Nat
  primitiveType : Nat
  vertTableSize : Nat
  vertTableOffset : Nat
  collisionDataOffset : Nat
  xoffset : Nat
  yoffset : Nat
  zoffset : Nat
  deriving Repr, DecidableEq

/-- struct.unpack of the piece record: exactly 52 bytes or struct.error. -/
def unpackPieceRec (l : List Nat) : Option PieceRec :=
  if l.length = 52 then
    some { nameOffset := le32At l 0, numChildren := le32At l 4,
           childrenOffset := le32At l 8, numVerts := le32At l 12,
           vertsOffset := le32At l 16, vertType := le32At l 20,
           primitiveType := le32At l 24, vertTableSize := le32At l 28,
           vertTableOffset := le32At l 32, collisionDataOffset := le32At l 36,
           xoffset := le32At l 40, yoffset := le32At l 44, zoffset := le32At l 48 }
  else none

/-- One decoded piece, source class s3o_piece (lines 127 to 265).  In the
source, verts and faces are rebound per instance inside load (lines 175 and
183), so they are per-piece fields here; children, by contrast, is a
class-level list that load never rebinds (line 134, mutated in place at line
263), so it is NOT a field of this structure: it is the shared state list
threaded through s3o_piece.load below, and the attribute lookup of children
on any instance is modelled by childrenAttr. -/
structure s3o_piece extends PieceRec where
  name : List Nat
  verts : List s3o_vert
  faces : List (List Nat)
  deriving Repr, DecidableEq

/-- Attribute lookup of children on an s3o_piece instance: the instance has no
such slot, so Python falls back to the class attribute, one single list
shared by every instance; with that list as explicit state cls, the lookup
returns cls whatever the instance is. -/
def childrenAttr (cls : List s3o_piece) (_p : s3o_piece) : List s3o_piece := cls

/-- Bool check that every face index of a piece is below its numVerts field;
the source never performs this check during table decode. -/
def facesInRange (p : s3o_piece) : Bool :=
  p.faces.all (fun f => f.all (fun i => decide (i < p.numVerts)))

/-- The vertex loop of source lines 175 to 179: for i in range(numVerts),
decode one vertex at vertsOffset + 32 * i. -/
def s3o_piece.loadVerts : Handle → Nat → Nat → Nat → Except PyErr (List s3o_vert × Handle)
  | h, _base, _i, 0 => .ok ([], h)
  | h, base, i, n + 1 =>
    onOk (s3o_vert.load h (base + i * 32)) fun xv =>
    onOk (s3o_piece.loadVerts xv.2 base (i + 1) n) fun yv =>
    .ok (xv.1 :: yv.1, yv.2)

/-- One iteration of the triangle loop body, source lines 187 to 190: read 12
bytes, unpack them as 3 little-endian indices (struct.error unless exactly 12
bytes came back), build one face. -/
def readTriGroup (h : Handle) : Except PyErr (List Nat × Handle) :=
  let bs := hread h 12
  if bs.1.length = 12 then .ok ([le32At bs.1 0, le32At bs.1 4, le32At bs.1 8], bs.2)
  else .error .structError

/-- One iteration of the quad loop body, source lines 197 to 200: read 16
bytes, unpack 4 indices. -/
def readQuadGroup (h : Handle) : Except PyErr (List Nat × Handle) :=
  let bs := hread h 16
  if bs.1.length = 16 then
    .ok ([le32At bs.1 0, le32At bs.1 4, le32At bs.1 8, le32At bs.1 12], bs.2)
  else .error .structError

/-- The triangle while loop of source lines 185 to 191, indexed by the number
of indices still below vertTableSize (rem = vertTableSize - i): the body runs
whenever rem is positive and then continues with rem - 3 under Nat
truncation, which is exactly the loop exit once i reaches or passes
vertTableSize. -/
def loadTrisAux : Handle → Nat → Except PyErr (List (List Nat) × Handle)
  | h, 0 => .ok ([], h)
  | h, 1 => onOk (readTriGroup h) fun x => .ok ([x.1], x.2)
  | h, 2 => onOk (readTriGroup h) fun x => .ok ([x.1], x.2)
  | h, rem + 3 =>
    onOk (readTriGroup h) fun x =>
    onOk (loadTrisAux x.2 rem) fun y =>
    .ok (x.1 :: y.1, y.2)

/-- The quad while loop of source lines 195 to 201, same indexing with step
four. -/
def loadQuadsAux : Handle → Nat → Except PyErr (List (List Nat) × Handle)
  | h, 0 => .ok ([], h)
  | h, 1 => onOk (readQuadGroup h) fun x => .ok ([x.1], x.2)
  | h, 2 => onOk (readQuadGroup h) fun x => .ok ([x.1], x.2)
  | h, 3 => onOk (readQuadGroup h) fun x => .ok ([x.1], x.2)
  | h, rem + 4 =>
    onOk (readQuadGroup h) fun x =>
    onOk (loadQuadsAux x.2 rem) fun y =>
    .ok (x.1 :: y.1, y.2)

/-- The primitive dispatch of source lines 184 to 203.  Type 1 raises the
TypeError of line 193; any type outside 0, 1, 2 reaches line 203, whose
message concatenates a str with an int, so the raised exception is the
TypeError from the failed concatenation. -/
def s3o_piece.loadFaces (h : Handle) (primitiveType vertTableSize : Nat) :
    Except PyErr (List (List Nat) × Handle) :=
  if primitiveType = 0 then loadTrisAux h vertTableSize
  else if primitiveType = 1 then .error (.typeError (S "Tristrips are unsupported so far"))
  else if primitiveType = 2 then loadQuadsAux h vertTableSize
  else .error (.typeError strIntConcatMsg)

/-- The mesh construction of source lines 205 to 248, reduced to its only
observable decode effect.  With numVerts = 0 the source creates an EMPTY
placeholder object (a host call that always succeeds).  Otherwise bmesh holds
exactly numVerts vertices and the subscript bm.verts[i] at line 218 (and
self.verts[f[i]] at lines 224 and 225) raises IndexError as soon as a face
index reaches numVerts; the remaining bpy and bmesh calls are host-side
effects with no bearing on the decoded data.  One host path is deliberately
not modelled: bmesh faces.new can also raise ValueError on a degenerate face
(repeated vertices, or the same face twice); the in-range check below is the
only part of the mesh construction the decode-level claims depend on. -/
def meshBuild (numVerts : Nat) (faces : List (List Nat)) : Except PyErr Unit :=
  if numVerts = 0 then .ok ()
  else if faces.all (fun f => f.all (fun i => decide (i < numVerts))) then .ok ()
  else .error .indexError

/-- The children loop of source lines 252 to 264, abstracted over the
recursive load call rec: read one 4-byte child offset, remember the position
right after it (line 257), recursively load the child, append it to the
shared class-level list, seek back to the remembered position, continue. -/
def s3o_piece.loadChildren
    (rec : Handle → Nat → List s3o_piece → Except PyErr (s3o_piece × Handle × List s3o_piece)) :
    Nat → Handle → List s3o_piece → Except PyErr (Handle × List s3o_piece)
  | 0, h, st => .ok (h, st)
  | n + 1, h, st =>
    let bs := hread h 4
    let saved := bs.2.pos
    match unpack1U bs.1 with
    | none => .error .structError
    | some co =>
      onOk (rec bs.2 co st) fun x =>
        s3o_piece.loadChildren rec n (hseek x.2.1 saved) (x.2.2 ++ [x.1])

/-- The body of s3o_piece.load (source lines 150 to 265) for one stack frame,
abstracted over the recursive call used for children: seek and unpack the
52-byte record, read the name string, load the vertices, seek to the vertex
table and decode the primitives, run the mesh construction, then load the
children when numChildren is positive.  The shared class-level children list
st is threaded through and returned beside the piece. -/
def s3o_piece.loadStep
    (rec : Handle → Nat → List s3o_piece → Except PyErr (s3o_piece × Handle × List s3o_piece))
    (h : Handle) (offset : Nat) (st : List s3o_piece) :
    Except PyErr (s3o_piece × Handle × List s3o_piece) :=
  let h0 := hseek h offset
  let bs := hread h0 52
  match unpackPieceRec bs.1 with
  | none => .error .structError
  | some r =>
    onOk (read_string (hseek bs.2 r.nameOffset) r.nameOffset) fun nh =>
    onOk (s3o_piece.loadVerts nh.2 r.vertsOffset 0 r.numVerts) fun vh =>
    onOk (s3o_piece.loadFaces (hseek vh.2 r.vertTableOffset) r.primitiveType r.vertTableSize) fun fh =>
    onOk (meshBuild r.numVerts fh.1) fun _u =>
    let piece : s3o_piece := { toPieceRec := r, name := nh.1, verts := vh.1, faces := fh.1 }
    if r.numChildren > 0 then
      onOk (s3o_piece.loadChildren rec r.numChildren (hseek fh.2 r.childrenOffset) st) fun y =>
        .ok (piece, y.1, y.2)
    else .ok (piece, fh.2, st)

/-- s3o_piece.load with the CPython call stack made explicit: fuel is the
number of stack frames still available, and exhausting it is the
RecursionError with which the interpreter aborts a runaway recursion.  The
source itself has no depth or cycle guard of any kind. -/
def s3o_piece.load : Nat → Handle → Nat → List s3o_piece → Except PyErr (s3o_piece × Handle × List s3o_piece)
  | 0, _h, _off, _st => .error .recursionError
  | fuel + 1, h, off, st => s3o_piece.loadStep (s3o_piece.load fuel) h off st

/-- load_s3o_file, source lines 294 to 358, restricted to the decode core:
load the header, then load the root piece at rootPieceOffset.  The material
and texture work between the two and the marker objects after them are host
and filesystem effects outside the decoder.  st is the current content of the
class-level s3o_piece.children list ([] in a fresh session); the root piece
itself is never appended to it. -/
def load_s3o_file (fuel : Nat) (data : List Nat) (st : List s3o_piece) :
    Except PyErr (s3o_header × s3o_piece × List s3o_piece) :=
  onOk (s3o_header.load ⟨data, 0⟩) fun hh =>
  onOk (s3o_piece.load fuel hh.2 hh.1.rootPieceOffset st) fun ph =>
  .ok (hh.1, ph.1, ph.2.2)

/-- Little-endian encoding of a 32-bit value, to build concrete test buffers. -/
def u32 (n : Nat) : List Nat :=
  [n % 256, n / 256 % 256, n / 65536 % 256, n / 16777216 % 256]

/-- Decidable equality for Except results, so that concrete runs of the
decoder can be settled by decide. -/
instance {a b : Type} [DecidableEq a] [DecidableEq b] : DecidableEq (Except a b) := fun
  | .error e, .error f =>
    if h : e = f then .isTrue (by rw [h]) else .isFalse (by intro hh; cases hh; exact h rfl)
  | .error _, .ok _ => .isFalse (by intro hh; cases hh)
  | .ok _, .error _ => .isFalse (by intro hh; cases hh)
  | .ok v, .ok w =>
    if h : v = w then .isTrue (by rw [h]) else .isFalse (by intro hh; cases hh; exact h rfl)

/-- The 12 magic bytes of a well-formed file: Spring unit plus one NUL pad. -/
def magicBytes : List Nat := S "Spring unit" ++ [0]

/-- Piece with numVerts = 0 but a triangle table of 3 indices 5, 6, 7 at
offset 56; name is the NUL at offset 52. -/
def c1buf : List Nat :=
  u32 52 ++ u32 0 ++ u32 0 ++ u32 0 ++ u32 0 ++ u32 0 ++ u32 0 ++ u32 3 ++
  u32 56 ++ u32 0 ++ u32 0 ++ u32 0 ++ u32 0 ++ [0, 0, 0, 0] ++ u32 5 ++ u32 6 ++ u32 7

/-- Piece with numVerts = 1, one zero vertex record at offset 56, and a
triangle referencing indices 5, 6, 7 at offset 88. -/
def c1buf2 : List Nat :=
  u32 52 ++ u32 0 ++ u32 0 ++ u32 1 ++ u32 56 ++ u32 0 ++ u32 0 ++ u32 3 ++
  u32 88 ++ u32 0 ++ u32 0 ++ u32 0 ++ u32 0 ++ [0, 0, 0, 0] ++
  List.replicate 32 0 ++ u32 5 ++ u32 6 ++ u32 7

/-- Piece with primitiveType 0 and vertTableSize 1, not a multiple of 3, with
three full indices available at offset 56. -/
def c3buf : List Nat :=
  u32 52 ++ u32 0 ++ u32 0 ++ u32 0 ++ u32 0 ++ u32 0 ++ u32 0 ++ u32 1 ++
  u32 56 ++ u32 0 ++ u32 0 ++ u32 0 ++ u32 0 ++ [0, 0, 0, 0] ++ u32 5 ++ u32 6 ++ u32 7

/-- Piece whose single child offset entry points back to its own offset 0: the
crafted cyclic file of the cycle-guard scenario. -/
def cycFile : List Nat :=
  u32 52 ++ u32 1 ++ u32 56 ++ u32 0 ++ u32 0 ++ u32 0 ++ u32 0 ++ u32 0 ++
  u32 0 ++ u32 0 ++ u32 0 ++ u32 0 ++ u32 0 ++ [0, 0, 0, 0] ++ u32 0

/-- The piece value parsed from cycFile at offset 0. -/
def cycPiece : s3o_piece :=
  { nameOffset := 52, numChildren := 1, childrenOffset := 56, numVerts := 0,
    vertsOffset := 0, vertType := 0, primitiveType := 0, vertTableSize := 0,
    vertTableOffset := 0, collisionDataOffset := 0, xoffset := 0, yoffset := 0,
    zoffset := 0, name := [], verts := [], faces := [] }

/-- Root at 0 with one child A at 52, which has one child A1 at 104; child
offset tables at 156 and 160, names r, a, b at 164, 166, 168. -/
def nestedBuf : List Nat :=
  (u32 164 ++ u32 1 ++ u32 156 ++ u32 0 ++ u32 0 ++ u32 0 ++ u32 0 ++ u32 0 ++
   u32 0 ++ u32 0 ++ u32 0 ++ u32 0 ++ u32 0) ++
  (u32 166 ++ u32 1 ++ u32 160 ++ u32 0 ++ u32 0 ++ u32 0 ++ u32 0 ++ u32 0 ++
   u32 0 ++ u32 0 ++ u32 0 ++ u32 0 ++ u32 0) ++
  (u32 168 ++ u32 0 ++ u32 0 ++ u32 0 ++ u32 0 ++ u32 0 ++ u32 0 ++ u32 0 ++
   u32 0 ++ u32 0 ++ u32 0 ++ u32 0 ++ u32 0) ++
  u32 52 ++ u32 104 ++ [114, 0, 97, 0, 98, 0]

/-- Root at 0 with three leaf children; the child offset table at 208 lists
them in file order C2 (at 104), C1 (at 52), C3 (at 156), which is not the
numeric order of the offsets.  Names are the digits 1, 2, 3 and r. -/
def flatBuf : List Nat :=
  (u32 226 ++ u32 3 ++ u32 208 ++ u32 0 ++ u32 0 ++ u32 0 ++ u32 0 ++ u32 0 ++
   u32 0 ++ u32 0 ++ u32 0 ++ u32 0 ++ u32 0) ++
  (u32 220 ++ u32 0 ++ u32 0 ++ u32 0 ++ u32 0 ++ u32 0 ++ u32 0 ++ u32 0 ++
   u32 0 ++ u32 0 ++ u32 0 ++ u32 0 ++ u32 0) ++
  (u32 222 ++ u32 0 ++ u32 0 ++ u32 0 ++ u32 0 ++ u32 0 ++ u32 0 ++ u32 0 ++
   u32 0 ++ u32 0 ++ u32 0 ++ u32 0 ++ u32 0) ++
  (u32 224 ++ u32 0 ++ u32 0 ++ u32 0 ++ u32 0 ++ u32 0 ++ u32 0 ++ u32 0 ++
   u32 0 ++ u32 0 ++ u32 0 ++ u32 0 ++ u32 0) ++
  u32 104 ++ u32 52 ++ u32 156 ++ [49, 0, 50, 0, 51, 0, 114, 0]

/-- Header with valid magic but version 1, everything else zero. -/
def c4buf : List Nat :=
  magicBytes ++ u32 1 ++ u32 0 ++ u32 0 ++ u32 0 ++ u32 0 ++ u32 0 ++ u32 0 ++
  u32 0 ++ u32 0 ++ u32 0

/-- Piece with the unknown primitive type 7 and an otherwise empty record. -/
def c4primBuf : List Nat :=
  u32 52 ++ u32 0 ++ u32 0 ++ u32 0 ++ u32 0 ++ u32 0 ++ u32 7 ++ u32 0 ++
  u32 0 ++ u32 0 ++ u32 0 ++ u32 0 ++ u32 0 ++ [0]

/-- Header whose first 12 bytes are Spring, NUL, space, unit: an interior NUL,
so the bytes trimmed only of trailing NULs and whitespace differ from
Spring unit; version 0, all other fields zero. -/
def c6buf : List Nat :=
  [83, 112, 114, 105, 110, 103, 0, 32, 117, 110, 105, 116] ++ u32 0 ++ u32 0 ++
  u32 0 ++ u32 0 ++ u32 0 ++ u32 0 ++ u32 0 ++ u32 0 ++ u32 0 ++ u32 0

/-- Header whose first magic byte is 255, outside ASCII. -/
def c6buf2 : List Nat :=
  [255, 0, 0, 0, 0, 0, 0, 0, 0, 0, 0, 0] ++ u32 0 ++ u32 0 ++ u32 0 ++ u32 0 ++
  u32 0 ++ u32 0 ++ u32 0 ++ u32 0 ++ u32 0 ++ u32 0

/-- Header whose 12 magic bytes are the file separator 28 followed by Spring
unit: a leading character that CPython str.strip() removes. -/
def c6buf3 : List Nat :=
  [28] ++ S "Spring unit" ++ u32 0 ++ u32 0 ++ u32 0 ++ u32 0 ++ u32 0 ++
  u32 0 ++ u32 0 ++ u32 0 ++ u32 0 ++ u32 0

/-- Header with a 12-character ASCII magic that is not Spring unit. -/
def c6wbuf : List Nat :=
  S "NotSpringMag" ++ u32 0 ++ u32 0 ++ u32 0 ++ u32 0 ++ u32 0 ++ u32 0 ++
  u32 0 ++ u32 0 ++ u32 0 ++ u32 0

/-- Piece record that is all zero except the name offset, which points at the
single NUL byte appended after the record. -/
def c7buf : List Nat :=
  u32 52 ++ u32 0 ++ u32 0 ++ u32 0 ++ u32 0 ++ u32 0 ++ u32 0 ++ u32 0 ++
  u32 0 ++ u32 0 ++ u32 0 ++ u32 0 ++ u32 0 ++ [0]

/-- Valid header whose stored midx has the bit pattern of 5.0 (1084227584,
hexadecimal 40A00000), midy 7 and midz 9 as raw patterns. -/
def c8buf : List Nat :=
  magicBytes ++ u32 0 ++ u32 0 ++ u32 0 ++ u32 1084227584 ++ u32 7 ++ u32 9 ++
  u32 0 ++ u32 0 ++ u32 0 ++ u32 0

/-- Valid header with texture1Offset 0 and texture2Offset 52 pointing at the
string abc terminated by NUL. -/
def c9buf : List Nat :=
  magicBytes ++ u32 0 ++ u32 0 ++ u32 0 ++ u32 0 ++ u32 0 ++ u32 0 ++ u32 0 ++
  u32 0 ++ u32 0 ++ u32 52 ++ [97, 98, 99, 0]


/-- Inversion for onOk: a successful composite run yields a successful first
stage and a successful continuation. -/
theorem onOk_eq_ok {a b : Type} {x : Except PyErr a} {f : a → Except PyErr b} {w : b}
    (hk : onOk x f = .ok w) : ∃ v, x = .ok v ∧ f v = .ok w := by
  cases x with
  | error e => exact Except.noConfusion hk
  | ok v => exact ⟨v, rfl, hk⟩

/-- One unfolding of the load body on the cyclic file: everything up to the
recursive child call computes, and the child offset read back is 0, the offset
of the enclosing piece itself. -/
theorem cyc_step
    (rec : Handle → Nat → List s3o_piece → Except PyErr (s3o_piece × Handle × List s3o_piece))
    (pos : Nat) (st : List s3o_piece) :
    s3o_piece.loadStep rec ⟨cycFile, pos⟩ 0 st =
      onOk (onOk (rec ⟨cycFile, 60⟩ 0 st)
        (fun x => s3o_piece.loadChildren rec 0 (hseek x.2.1 60) (x.2.2 ++ [x.1])))
        (fun y => .ok (cycPiece, y.1, y.2)) := rfl

/-- On the cyclic file every stack budget is exhausted: the load of the piece
at offset 0 re-enters itself through its own child offset at every depth. -/
theorem cyc_aux : ∀ (fuel pos : Nat) (st : List s3o_piece),
    s3o_piece.load fuel ⟨cycFile, pos⟩ 0 st = .error .recursionError := by
  intro fuel
  induction fuel with
  | zero => intro pos st; rfl
  | succ n ih =>
    intro pos st
    have h1 : s3o_piece.load (n + 1) ⟨cycFile, pos⟩ 0 st
        = s3o_piece.loadStep (s3o_piece.load n) ⟨cycFile, pos⟩ 0 st := rfl
    rw [h1, cyc_step, ih 60 st]
    rfl

/-- A successful triangle group read consumed exactly 12 bytes. -/
theorem readTriGroup_ok (h : Handle) (f : List Nat) (h2 : Handle)
    (hk : readTriGroup h = .ok (f, h2)) : h2.pos = h.pos + 12 := by
  unfold readTriGroup hread at hk
  dsimp only at hk
  split at hk
  · rename_i hlen
    rw [Except.ok.injEq, Prod.mk.injEq] at hk
    rw [← hk.2]
    simp [hlen]
  · exact Except.noConfusion hk

/-- A successful quad group read consumed exactly 16 bytes. -/
theorem readQuadGroup_ok (h : Handle) (f : List Nat) (h2 : Handle)
    (hk : readQuadGroup h = .ok (f, h2)) : h2.pos = h.pos + 16 := by
  unfold readQuadGroup hread at hk
  dsimp only at hk
  split at hk
  · rename_i hlen
    rw [Except.ok.injEq, Prod.mk.injEq] at hk
    rw [← hk.2]
    simp [hlen]
  · exact Except.noConfusion hk

/-- The triangle loop produces one face per started group of three: a
successful run on rem outstanding indices yields ceil(rem / 3) faces and
advances the stream by 12 bytes per face. -/
theorem loadTrisAux_ok : ∀ (rem : Nat) (h : Handle) (fs : List (List Nat)) (h2 : Handle),
    loadTrisAux h rem = .ok (fs, h2) →
    fs.length = (rem + 2) / 3 ∧ h2.pos = h.pos + 12 * ((rem + 2) / 3) := by
  intro rem
  induction rem using Nat.strong_induction_on with
  | _ rem ih =>
    match rem with
    | 0 =>
      intro h fs h2 hk
      unfold loadTrisAux at hk
      rw [Except.ok.injEq, Prod.mk.injEq] at hk
      obtain ⟨hfs, hh⟩ := hk
      subst hfs; subst hh
      simp
    | 1 =>
      intro h fs h2 hk
      unfold loadTrisAux at hk
      obtain ⟨x, hx, hk⟩ := onOk_eq_ok hk
      rw [Except.ok.injEq, Prod.mk.injEq] at hk
      obtain ⟨hfs, hh⟩ := hk
      subst hfs; subst hh
      have hp := readTriGroup_ok h x.1 x.2 hx
      simp [hp]
    | 2 =>
      intro h fs h2 hk
      unfold loadTrisAux at hk
      obtain ⟨x, hx, hk⟩ := onOk_eq_ok hk
      rw [Except.ok.injEq, Prod.mk.injEq] at hk
      obtain ⟨hfs, hh⟩ := hk
      subst hfs; subst hh
      have hp := readTriGroup_ok h x.1 x.2 hx
      simp [hp]
    | rem + 3 =>
      intro h fs h2 hk
      unfold loadTrisAux at hk
      obtain ⟨x, hx, hk⟩ := onOk_eq_ok hk
      obtain ⟨y, hy, hk⟩ := onOk_eq_ok hk
      rw [Except.ok.injEq, Prod.mk.injEq] at hk
      obtain ⟨hfs, hh⟩ := hk
      subst hfs; subst hh
      have hp := readTriGroup_ok h x.1 x.2 hx
      have hrec := ih rem (by omega) x.2 y.1 y.2 hy
      constructor
      · simp [hrec.1]; omega
      · rw [hrec.2, hp]; omega

/-- The quad loop produces one face per started group of four and advances the
stream by 16 bytes per face. -/
theorem loadQuadsAux_ok : ∀ (rem : Nat) (h : Handle) (fs : List (List Nat)) (h2 : Handle),
    loadQuadsAux h rem = .ok (fs, h2) →
    fs.length = (rem + 3) / 4 ∧ h2.pos = h.pos + 16 * ((rem + 3) / 4) := by
  intro rem
  induction rem using Nat.strong_induction_on with
  | _ rem ih =>
    match rem with
    | 0 =>
      intro h fs h2 hk
      unfold loadQuadsAux at hk
      rw [Except.ok.injEq, Prod.mk.injEq] at hk
      obtain ⟨hfs, hh⟩ := hk
      subst hfs; subst hh
      simp
    | 1 =>
      intro h fs h2 hk
      unfold loadQuadsAux at hk
      obtain ⟨x, hx, hk⟩ := onOk_eq_ok hk
      rw [Except.ok.injEq, Prod.mk.injEq] at hk
      obtain ⟨hfs, hh⟩ := hk
      subst hfs; subst hh
      have hp := readQuadGroup_ok h x.1 x.2 hx
      simp [hp]
    | 2 =>
      intro h fs h2 hk
      unfold loadQuadsAux at hk
      obtain ⟨x, hx, hk⟩ := onOk_eq_ok hk
      rw [Except.ok.injEq, Prod.mk.injEq] at hk
      obtain ⟨hfs, hh⟩ := hk
      subst hfs; subst hh
      have hp := readQuadGroup_ok h x.1 x.2 hx
      simp [hp]
    | 3 =>
      intro h fs h2 hk
      unfold loadQuadsAux at hk
      obtain ⟨x, hx, hk⟩ := onOk_eq_ok hk
      rw [Except.ok.injEq, Prod.mk.injEq] at hk
      obtain ⟨hfs, hh⟩ := hk
      subst hfs; subst hh
      have hp := readQuadGroup_ok h x.1 x.2 hx
      simp [hp]
    | rem + 4 =>
      intro h fs h2 hk
      unfold loadQuadsAux at hk
      obtain ⟨x, hx, hk⟩ := onOk_eq_ok hk
      obtain ⟨y, hy, hk⟩ := onOk_eq_ok hk
      rw [Except.ok.injEq, Prod.mk.injEq] at hk
      obtain ⟨hfs, hh⟩ := hk
      subst hfs; subst hh
      have hp := readQuadGroup_ok h x.1 x.2 hx
      have hrec := ih rem (by omega) x.2 y.1 y.2 hy
      constructor
      · simp [hrec.1]; omega
      · rw [hrec.2, hp]; omega

/-- Any piece that survives one load step obeys the mesh-building index
bounds: either it has no vertices at all (the EMPTY branch, which skips the
bounds entirely) or every face index is below numVerts. -/
theorem loadStep_numVerts
    (rec : Handle → Nat → List s3o_piece → Except PyErr (s3o_piece × Handle × List s3o_piece))
    (h : Handle) (off : Nat) (st : List s3o_piece)
    (x : s3o_piece × Handle × List s3o_piece)
    (hk : s3o_piece.loadStep rec h off st = .ok x) :
    x.1.numVerts = 0 ∨ facesInRange x.1 = true := by
  unfold s3o_piece.loadStep at hk
  dsimp only at hk
  split at hk
  · exact Except.noConfusion hk
  · obtain ⟨nh, hn, hk⟩ := onOk_eq_ok hk
    obtain ⟨vh, hv, hk⟩ := onOk_eq_ok hk
    obtain ⟨fh, hf, hk⟩ := onOk_eq_ok hk
    obtain ⟨u, hm, hk⟩ := onOk_eq_ok hk
    unfold meshBuild at hm
    split at hk
    · obtain ⟨y, hy, hk⟩ := onOk_eq_ok hk
      rw [Except.ok.injEq] at hk
      subst hk
      split at hm
      · rename_i h0; exact Or.inl h0
      · split at hm
        · rename_i hall; exact Or.inr hall
        · exact Except.noConfusion hm
    · rw [Except.ok.injEq] at hk
      subst hk
      split at hm
      · rename_i h0; exact Or.inl h0
      · split at hm
        · rename_i hall; exact Or.inr hall
        · exact Except.noConfusion hm

/-- Characterisation of a successful header load: the mid fields are taken
from bytes 24, 28 and 32 with the sign flip applied to midx only, the texture
offsets come from bytes 44 and 48, and each texture string is empty on a zero
offset and otherwise the null-terminated string read at the offset. -/
theorem header_ok_char (data : List Nat) (p : s3o_header × Handle)
    (hk : s3o_header.load ⟨data, 0⟩ = .ok p) :
    p.1.midx = f32neg (le32At (data.take 52) 24)
    ∧ p.1.midy = le32At (data.take 52) 28
    ∧ p.1.midz = le32At (data.take 52) 32
    ∧ p.1.texture1Offset = le32At (data.take 52) 44
    ∧ p.1.texture2Offset = le32At (data.take 52) 48
    ∧ (p.1.texture1Offset = 0 → p.1.texture1 = [])
    ∧ (p.1.texture1Offset ≠ 0 → cStringAt data p.1.texture1Offset = .ok p.1.texture1)
    ∧ (p.1.texture2Offset = 0 → p.1.texture2 = [])
    ∧ (p.1.texture2Offset ≠ 0 → cStringAt data p.1.texture2Offset = .ok p.1.texture2) := by
  unfold s3o_header.load hread at hk
  dsimp only at hk
  rw [List.drop_zero] at hk
  split at hk
  · obtain ⟨m, hasc, hk⟩ := onOk_eq_ok hk
    split at hk
    · split at hk
      · obtain ⟨t1, ht1, hk⟩ := onOk_eq_ok hk
        obtain ⟨t2, ht2, hk⟩ := onOk_eq_ok hk
        rw [Except.ok.injEq] at hk
        subst hk
        split at ht1
        · rename_i h10
          rw [Except.ok.injEq] at ht1
          subst ht1
          split at ht2
          · rename_i h20
            rw [Except.ok.injEq] at ht2
            subst ht2
            refine ⟨rfl, rfl, rfl, rfl, rfl, fun _ => rfl, fun hne => absurd h10 hne, fun _ => rfl, fun hne => absurd h20 hne⟩
          · rename_i h2ne
            unfold read_string at ht2
            dsimp only at ht2
            obtain ⟨sc2, hsc2, hx2⟩ := onOk_eq_ok ht2
            rw [Except.ok.injEq] at hx2
            subst hx2
            refine ⟨rfl, rfl, rfl, rfl, rfl, fun _ => rfl, fun hne => absurd h10 hne, fun h20 => absurd h20 h2ne, fun _ => ?_⟩
            unfold cStringAt
            rw [hsc2]
            rfl
        · rename_i h1ne
          unfold read_string at ht1
          dsimp only at ht1
          obtain ⟨sc1, hsc1, hx1⟩ := onOk_eq_ok ht1
          rw [Except.ok.injEq] at hx1
          subst hx1
          split at ht2
          · rename_i h20
            rw [Except.ok.injEq] at ht2
            subst ht2
            refine ⟨rfl, rfl, rfl, rfl, rfl, fun h10 => absurd h10 h1ne, fun _ => ?_, fun _ => rfl, fun hne => absurd h20 hne⟩
            unfold cStringAt
            rw [hsc1]
            rfl
          · rename_i h2ne
            unfold read_string at ht2
            dsimp only at ht2
            obtain ⟨sc2, hsc2, hx2⟩ := onOk_eq_ok ht2
            rw [Except.ok.injEq] at hx2
            subst hx2
            refine ⟨rfl, rfl, rfl, rfl, rfl, fun h10 => absurd h10 h1ne, fun _ => ?_, fun h20 => absurd h20 h2ne, fun _ => ?_⟩
            · unfold cStringAt
              rw [hsc1]
              rfl
            · unfold cStringAt
              rw [hsc2]
              rfl
      · exact Except.noConfusion hk
    · exact Except.noConfusion hk
  · exact Except.noConfusion hk

/-- C6 (amended): for every buffer of at least 52 bytes whose first 12 bytes
are ASCII and whose first 12 bytes, after removing every NUL byte and
stripping leading and trailing Python whitespace (tab through carriage
return, the separators 28 to 31, and space), differ from Spring unit, header
decode fails with the bad-magic IOError, whatever the remaining bytes hold:
magic is validated before any other field is trusted. -/
theorem c6_theorem (data : List Nat) (h52 : 52 ≤ data.length)
    (hascii : (data.take 12).all (fun c => decide (c < 128)) = true)
    (hmag : magicNorm (data.take 12) ≠ springUnit) :
    s3o_header.load ⟨data, 0⟩ = .error (.ioError (notSpringMsg (magicNorm (data.take 12)))) := by
  unfold s3o_header.load hread
  dsimp only
  rw [List.drop_zero]
  rw [if_pos (by simp [List.length_take]; omega)]
  have ht : (data.take 52).take 12 = data.take 12 := by
    simp [List.take_take]
  rw [ht]
  unfold decodeAscii
  rw [if_pos hascii]
  simp only [onOk_ok]
  rw [if_neg hmag]

/-- C7: a piece record with numVerts 0, an empty primitive table of triangle
type, no children and a readable name decodes successfully, at any stack
depth and from any starting position, into a piece with empty verts and empty
faces; the piece is returned, not skipped, and the shared children list is
untouched. -/
theorem c7_theorem (data : List Nat) (pos off : Nat) (st : List s3o_piece) (fuel : Nat)
    (r : PieceRec) (nm : List Nat × Nat)
    (hrec : unpackPieceRec ((data.drop off).take 52) = some r)
    (hnv : r.numVerts = 0) (hts : r.vertTableSize = 0) (hpt : r.primitiveType = 0)
    (hnc : r.numChildren = 0)
    (hname : scanCString (data.drop r.nameOffset) = .ok nm) :
    s3o_piece.load (fuel + 1) ⟨data, pos⟩ off st =
      .ok ({ toPieceRec := r, name := nm.1, verts := [], faces := [] },
           ⟨data, r.vertTableOffset⟩, st) := by
  have h1 : s3o_piece.load (fuel + 1) ⟨data, pos⟩ off st
      = s3o_piece.loadStep (s3o_piece.load fuel) ⟨data, pos⟩ off st := rfl
  rw [h1]
  unfold s3o_piece.loadStep read_string hseek hread
  dsimp only
  rw [hrec]
  dsimp only
  rw [hname]
  simp only [onOk_ok]
  rw [hnv, hts, hpt, hnc]
  simp [s3o_piece.loadVerts, s3o_piece.loadFaces, loadTrisAux, meshBuild, onOk]

/-- The full result of loading the c1buf piece: decode succeeds and hands back
the out-of-range faces untouched. -/
def c1res : s3o_piece × Handle × List s3o_piece :=
  ({ nameOffset := 52, numChildren := 0, childrenOffset := 0, numVerts := 0,
     vertsOffset := 0, vertType := 0, primitiveType := 0, vertTableSize := 3,
     vertTableOffset := 56, collisionDataOffset := 0, xoffset := 0, yoffset := 0,
     zoffset := 0, name := [], verts := [], faces := [[5, 6, 7]] }, ⟨c1buf, 68⟩, [])

/-- C1 counterexample: a piece with numVerts 0 and a triangle table holding
the out-of-range indices 5, 6, 7 decodes successfully and is returned with
those faces, every one of them at or above numVerts, and no error of any
kind is raised: face indices are not validated during piece decode. -/
theorem c1_counterexample :
    (s3o_piece.load 1 ⟨c1buf, 0⟩ 0 []).toOption.map
      (fun x => (x.1.numVerts, x.1.faces, facesInRange x.1)) = some (0, [[5, 6, 7]], false) := rfl

/-- C1 (amended): the primitive-table decode never checks indices; the only
bound comes from the later mesh construction, so a piece returned by load
either has numVerts 0 (EMPTY branch, bounds never checked, bad faces kept) or
all face indices below numVerts; and with numVerts positive an out-of-range
index aborts the load with the Python IndexError of the bmesh subscript, not
with a dedicated IndexOutOfRange decode error. -/
theorem c1_theorem :
    (∀ (fuel : Nat) (h : Handle) (off : Nat) (st : List s3o_piece)
       (x : s3o_piece × Handle × List s3o_piece),
       s3o_piece.load fuel h off st = .ok x → x.1.numVerts = 0 ∨ facesInRange x.1 = true)
    ∧ s3o_piece.load 1 ⟨c1buf2, 0⟩ 0 [] = .error .indexError := by
  constructor
  · intro fuel h off st x hk
    match fuel with
    | 0 => exact Except.noConfusion hk
    | n + 1 => exact loadStep_numVerts (s3o_piece.load n) h off st x hk
  · rfl

/-- C1 witness: the general bound instantiated on a concrete successful run. -/
theorem c1_witness :
    s3o_piece.load 1 ⟨c1buf, 0⟩ 0 [] = .ok c1res
    ∧ (c1res.1.numVerts = 0 ∨ facesInRange c1res.1 = true) :=
  ⟨rfl, c1_theorem.1 1 ⟨c1buf, 0⟩ 0 [] c1res rfl⟩

/-- The load of the piece at the given offset exhausts every stack budget:
whatever fuel, position and shared list it starts from, it ends in the
interpreter recursion error and nothing else. -/
def divergesAtEveryDepth (data : List Nat) (off : Nat) : Prop :=
  ∀ (fuel pos : Nat) (st : List s3o_piece),
    s3o_piece.load fuel ⟨data, pos⟩ off st = .error .recursionError

/-- C2 counterexample: on the crafted file whose piece at offset 0 lists its
own offset as its only child, decode does not fail with any cycle error; it
consumes every available stack frame and is stopped only by the interpreter
recursion limit, at every depth budget. -/
theorem c2_counterexample : divergesAtEveryDepth cycFile 0 := cyc_aux

/-- C2 (amended): the decoder tracks no visited offsets and has no
CyclicPieceGraph error; on a self-referencing child offset the recursion
never completes: at every stack budget the result is the interpreter
RecursionError, never a decoded piece and never a decode error. -/
theorem c2_theorem : ∀ (fuel pos : Nat) (st : List s3o_piece),
    s3o_piece.load fuel ⟨cycFile, pos⟩ 0 st = .error .recursionError := cyc_aux

/-- C3 counterexample: a triangle table declared with vertTableSize 1, not a
multiple of 3, does not fail with any malformed-table error: the loop reads a
full group of three indices and decode succeeds with one face. -/
theorem c3_counterexample :
    (s3o_piece.load 1 ⟨c3buf, 0⟩ 0 []).toOption.map
      (fun x => (x.1.primitiveType, x.1.vertTableSize, x.1.faces)) = some (0, 1, [[5, 6, 7]]) := rfl

/-- C3 (amended): the triangle loop consumes whole groups of 3 while the
running index is below vertTableSize, so a successful decode yields
ceil(vertTableSize / 3) faces and consumes 12 bytes per face, over-reading
past a size that is not a multiple of 3; likewise the quad loop with groups
of 4; there is no divisibility check and no MalformedTable error, the only
failure being struct.error when a full group cannot be read. -/
theorem c3_theorem :
    (∀ (rem : Nat) (h : Handle) (fs : List (List Nat)) (h2 : Handle),
        loadTrisAux h rem = .ok (fs, h2) →
        fs.length = (rem + 2) / 3 ∧ h2.pos = h.pos + 12 * ((rem + 2) / 3))
    ∧ (∀ (rem : Nat) (h : Handle) (fs : List (List Nat)) (h2 : Handle),
        loadQuadsAux h rem = .ok (fs, h2) →
        fs.length = (rem + 3) / 4 ∧ h2.pos = h.pos + 16 * ((rem + 3) / 4)) :=
  ⟨loadTrisAux_ok, loadQuadsAux_ok⟩

/-- C3 witness: the counting law instantiated on the concrete size-1 table. -/
theorem c3_witness :
    loadTrisAux ⟨c3buf, 56⟩ 1 = .ok ([[5, 6, 7]], ⟨c3buf, 68⟩)
    ∧ ([[5, 6, 7]] : List (List Nat)).length = (1 + 2) / 3
    ∧ (Handle.mk c3buf 68).pos = (Handle.mk c3buf 56).pos + 12 * ((1 + 2) / 3) :=
  ⟨rfl, (c3_theorem.1 1 ⟨c3buf, 56⟩ [[5, 6, 7]] ⟨c3buf, 68⟩ rfl).1,
        (c3_theorem.1 1 ⟨c3buf, 56⟩ [[5, 6, 7]] ⟨c3buf, 68⟩ rfl).2⟩

/-- C4: a valid magic with version 1 makes the header load fail, fatally for
the whole decode, but the raised exception is the TypeError produced by the
str plus int concatenation in the message of line 103, not the intended
ValueError; it is the very same exception value the unknown-primitive-type
raise at line 203 produces, so the version failure is not a distinguishable
kind. -/
theorem c4_theorem :
    s3o_header.load ⟨c4buf, 0⟩ = .error (.typeError strIntConcatMsg)
    ∧ load_s3o_file 1 c4buf [] = .error (.typeError strIntConcatMsg)
    ∧ s3o_piece.load 1 ⟨c4primBuf, 0⟩ 0 [] = .error (.typeError strIntConcatMsg) :=
  ⟨rfl, rfl, rfl⟩

/-- C5 counterexample: for a root piece declaring exactly one child that
itself has one child, the decoded children sequence of the root holds two
pieces, the grandchild first, because children is one shared class-level
list; it does not match the one-entry child-offset table of the root. -/
theorem c5_counterexample :
    (s3o_piece.load 3 ⟨nestedBuf, 0⟩ 0 []).toOption.map
      (fun x => (x.1.numChildren, x.2.2.map (fun p => p.name))) = some (1, [[98], [97]]) := rfl

/-- C5 (amended): child offsets are read in file order with the position
saved after each 4-byte entry and restored after the recursive decode, and
each child is appended after its own subtree completes; only for a piece
whose children are all leaves, decoded while the shared list is empty, is the
resulting children sequence exactly the file order of the offset table, here
C2, C1, C3 even though their offsets are not in numeric order. -/
theorem c5_theorem :
    (s3o_piece.load 2 ⟨flatBuf, 0⟩ 0 []).toOption.map
      (fun x => (x.1.numChildren, x.2.2.map (fun p => p.name))) = some (3, [[50], [49], [51]]) := rfl

/-- C6 counterexample: the magic comparison removes ALL NUL bytes, not only
trailing ones, so twelve bytes reading Spring, NUL, space, unit are accepted
and decode succeeds although they differ from Spring unit after trimming only
trailing NULs and whitespace; a non-ASCII byte in the magic raises
UnicodeDecodeError rather than the bad-magic IOError; and the strip also
removes leading whitespace, including the separator characters 28 to 31, so a
magic of 28 followed by Spring unit is accepted as well. -/
theorem c6_counterexample :
    (s3o_header.load ⟨c6buf, 0⟩).toOption.map (fun x => x.1.magic) = some springUnit
    ∧ s3o_header.load ⟨c6buf2, 0⟩ = .error .unicodeDecodeError
    ∧ (s3o_header.load ⟨c6buf3, 0⟩).toOption.map (fun x => x.1.magic) = some springUnit :=
  ⟨rfl, rfl, rfl⟩

/-- C6 witness: the amended rejection law applied to a concrete 52-byte
buffer with an ASCII magic different from Spring unit. -/
theorem c6_witness :
    52 ≤ c6wbuf.length
    ∧ (c6wbuf.take 12).all (fun c => decide (c < 128)) = true
    ∧ magicNorm (c6wbuf.take 12) ≠ springUnit
    ∧ s3o_header.load ⟨c6wbuf, 0⟩ = .error (.ioError (notSpringMsg (magicNorm (c6wbuf.take 12)))) :=
  ⟨by decide, by decide, by decide, c6_theorem c6wbuf (by decide) (by decide) (by decide)⟩

/-- The unpacked record of the all-zero piece with its name offset at 52. -/
def c7rec : PieceRec :=
  { nameOffset := 52, numChildren := 0, childrenOffset := 0, numVerts := 0,
    vertsOffset := 0, vertType := 0, primitiveType := 0, vertTableSize := 0,
    vertTableOffset := 0, collisionDataOffset := 0, xoffset := 0, yoffset := 0,
    zoffset := 0 }

/-- C7 witness: the zero-vertex law applied to the concrete 53-byte piece. -/
theorem c7_witness :
    s3o_piece.load 1 ⟨c7buf, 0⟩ 0 [] =
      .ok ({ toPieceRec := c7rec, name := [], verts := [], faces := [] }, ⟨c7buf, 0⟩, []) :=
  c7_theorem c7buf 0 0 [] 0 c7rec ([], 1) rfl rfl rfl rfl rfl rfl

/-- C8: on every successful header load the stored midx is the sign-flipped
raw field at byte 24 while midy and midz are the raw fields at bytes 28 and
32, unchanged. -/
theorem c8_theorem (data : List Nat) (p : s3o_header × Handle)
    (hk : s3o_header.load ⟨data, 0⟩ = .ok p) :
    p.1.midx = f32neg (le32At (data.take 52) 24)
    ∧ p.1.midy = le32At (data.take 52) 28
    ∧ p.1.midz = le32At (data.take 52) 32 := by
  have h := header_ok_char data p hk
  exact ⟨h.1, h.2.1, h.2.2.1⟩

/-- The decoded header of c8buf: midx carries the bit pattern of -5.0. -/
def c8res : s3o_header × Handle :=
  ({ magic := springUnit, version := 0, radius := 0, height := 0,
     midx := 3231711232, midy := 7, midz := 9, rootPieceOffset := 0,
     collisionDataOffset := 0, texture1Offset := 0, texture2Offset := 0,
     texture1 := [], texture2 := [] }, ⟨c8buf, 52⟩)

/-- C8 witness: a stored midx with the bit pattern of 5.0 (1084227584) decodes
to the bit pattern of -5.0 (3231711232), and midy, midz are unchanged. -/
theorem c8_witness :
    s3o_header.load ⟨c8buf, 0⟩ = .ok c8res
    ∧ c8res.1.midx = f32neg (le32At (c8buf.take 52) 24)
    ∧ le32At (c8buf.take 52) 24 = 1084227584
    ∧ f32neg 1084227584 = 3231711232
    ∧ c8res.1.midy = 7 ∧ c8res.1.midz = 9 :=
  ⟨rfl, (c8_theorem c8buf c8res rfl).1, rfl, rfl, rfl, rfl⟩

/-- C9: on every successful header load, a zero texture offset yields the
empty string with no error, and a nonzero offset yields exactly the
null-terminated string read at that absolute offset. -/
theorem c9_theorem (data : List Nat) (p : s3o_header × Handle)
    (hk : s3o_header.load ⟨data, 0⟩ = .ok p) :
    (p.1.texture1Offset = 0 → p.1.texture1 = [])
    ∧ (p.1.texture1Offset ≠ 0 → cStringAt data p.1.texture1Offset = .ok p.1.texture1)
    ∧ (p.1.texture2Offset = 0 → p.1.texture2 = [])
    ∧ (p.1.texture2Offset ≠ 0 → cStringAt data p.1.texture2Offset = .ok p.1.texture2) := by
  have h := header_ok_char data p hk
  exact ⟨h.2.2.2.2.2.1, h.2.2.2.2.2.2.1, h.2.2.2.2.2.2.2.1, h.2.2.2.2.2.2.2.2⟩

/-- The decoded header of c9buf: texture1 empty from offset 0, texture2 read
at offset 52. -/
def c9res : s3o_header × Handle :=
  ({ magic := springUnit, version := 0, radius := 0, height := 0,
     midx := 2147483648, midy := 0, midz := 0, rootPieceOffset := 0,
     collisionDataOffset := 0, texture1Offset := 0, texture2Offset := 52,
     texture1 := [], texture2 := [97, 98, 99] }, ⟨c9buf, 56⟩)

/-- C9 witness: on the concrete header, texture1Offset 0 gives the empty
texture1 and the nonzero texture2Offset gives the string abc read at 52. -/
theorem c9_witness :
    s3o_header.load ⟨c9buf, 0⟩ = .ok c9res
    ∧ c9res.1.texture1 = []
    ∧ cStringAt c9buf c9res.1.texture2Offset = .ok c9res.1.texture2 :=
  ⟨rfl, (c9_theorem c9buf c9res rfl).1 rfl, (c9_theorem c9buf c9res rfl).2.2.2 (by decide)⟩

/-- C10: the children attribute resolves to the one class-level list for every
instance, so any two pieces see the same children; on the nested file the
list accumulated by the decode holds the grandchild and the child, in
subtree-completion order, and a second decode in the same session starting
from that list keeps accumulating: the root of the second file then sees all
five pieces of both files as its children. -/
theorem c10_theorem :
    (∀ (cls : List s3o_piece) (p q : s3o_piece), childrenAttr cls p = childrenAttr cls q)
    ∧ (∀ (cls : List s3o_piece) (p : s3o_piece), childrenAttr cls p = cls)
    ∧ (s3o_piece.load 3 ⟨nestedBuf, 0⟩ 0 []).toOption.map
        (fun x => (childrenAttr x.2.2 x.1).map (fun p => p.name)) = some [[98], [97]]
    ∧ ((s3o_piece.load 3 ⟨nestedBuf, 0⟩ 0 []).toOption.bind
        (fun x => (s3o_piece.load 2 ⟨flatBuf, 0⟩ 0 x.2.2).toOption.map
          (fun y => (childrenAttr y.2.2 y.1).map (fun p => p.name))))
      = some [[98], [97], [50], [49], [51]] :=
  ⟨fun _ _ _ => rfl, fun _ _ => rfl, rfl, rfl⟩
